import Mathlib

/-!
Shallow embedding of the access-gating and onboarding-progression engine of
the heeal-tracker app, together with proofs of the specified properties.

Sources embedded here:
* `src/app/(features)/chat/onboardingQuestions.ts` — the static question table.
* `src/app/(features)/chat/onboardingFlow.ts` — `hasQuestionBeenSent`,
  `sendNextOnboardingQuestion`, `progressOnboardingStep`, `completeOnboarding`,
  `doesCurrentStepRequireAnswer`.
* the chat screen's `send()` handler (plan generation at onboarding completion).
* `calculateStreak` from the habit utilities.
* `isProfileComplete` from `lib/profile`.
* `AuthMiddleware` route gating and the `AuthProvider` session derivation.

Firestore writes are modelled as explicit state passing; `setTimeout`-scheduled
callbacks are modelled as pending-action queues consumed by explicit events.
-/

namespace Heeal

/-! ### Onboarding question table (`onboardingQuestions.ts`) -/

structure OnboardingQuestion where
  step : Nat
  question : String
  shortQuestion : String
  answerRequired : Bool
  deriving Repr, DecidableEq

/-- The static table from `onboardingQuestions.ts`: five entries, steps 0–4,
every entry with `answerRequired: true`.  Prompt texts are abbreviated; only
`step` and `answerRequired` ever influence control flow. -/
def onboardingQuestions : List OnboardingQuestion :=
  [ { step := 0, question := "In your own words, what is the #1 feeling or achievement you are chasing?",
      shortQuestion := "feeling or achievement you are chasing?", answerRequired := true },
    { step := 1, question := "On a scale of 1-10, how confident are you about sticking to a new routine?",
      shortQuestion := "confidence level and main obstacle?", answerRequired := true },
    { step := 2, question := "What does a real, satisfying treat or favourite meal look like for you?",
      shortQuestion := "real, satisfying treat or favourite meal?", answerRequired := true },
    { step := 3, question := "What does a win look like for you at the end of a successful day?",
      shortQuestion := "what does a win look like for you at the end of a successful day?", answerRequired := true },
    { step := 4, question := "Perfect. I am creating your fully personalized plan now - check the Plan tab!",
      shortQuestion := "", answerRequired := true } ]

def TOTAL_ONBOARDING_STEPS : Nat := onboardingQuestions.length

/-! ### Chat messages (`data.ts`) -/

inductive ChatRole
  | user
  | assistant
  | system
  | event
  deriving Repr, DecidableEq

/-- A conversation message as the engine reads it: its role and the
`meta?.onboardingStep` field (absent meta or absent field ⇒ `none`). -/
structure ChatMessage where
  role : ChatRole
  text : String
  metaStep : Option Nat
  deriving Repr, DecidableEq

/-- Function `hasQuestionBeenSent` from `onboardingFlow.ts`: true iff some message has
`role == "assistant"` and `meta?.onboardingStep === currentStep`. -/
def hasQuestionBeenSent (messages : List ChatMessage) (currentStep : Nat) : Bool :=
  messages.any (fun m => m.role == ChatRole.assistant && m.metaStep == some currentStep)

/-! ### `sendNextOnboardingQuestion` (`onboardingFlow.ts`)

One invocation's effects: the list of messages it appends via `sendAura`,
whether it invoked `completeOnboarding`, and the `setTimeout`-scheduled
`progressOnboardingStep` call (present only when the question's
`answerRequired` is false). -/

structure SendResult where
  appended : List ChatMessage
  completed : Bool
  scheduledProgress : Option Nat
  deriving Repr, DecidableEq

/-- Function `sendNextOnboardingQuestion(uid, currentStep, existingMessages = [])`.
The `uid` and the Firestore side of `sendAura` are external; the appended
assistant message carries `meta.onboardingStep = currentStep`. -/
def sendNextOnboardingQuestion (currentStep : Nat)
    (existingMessages : List ChatMessage := []) : SendResult :=
  if currentStep ≥ TOTAL_ONBOARDING_STEPS then
    { appended := [], completed := true, scheduledProgress := none }
  else
    let availableQuestions := onboardingQuestions.filter (fun q => q.step ≥ currentStep)
    if availableQuestions.isEmpty then
      { appended := [], completed := false, scheduledProgress := none }
    else
      match availableQuestions.find? (fun q => q.step == currentStep) with
      | none => { appended := [], completed := false, scheduledProgress := none }
      | some questionData =>
        if hasQuestionBeenSent existingMessages currentStep then
          { appended := [], completed := false, scheduledProgress := none }
        else
          { appended := [{ role := ChatRole.assistant, text := questionData.question,
                           metaStep := some currentStep }],
            completed := false,
            scheduledProgress :=
              if questionData.answerRequired then none else some currentStep }

/-- Function `doesCurrentStepRequireAnswer` from `onboardingFlow.ts`: table lookup,
`false` when the step has no entry (`?.answerRequired || false`). -/
def doesCurrentStepRequireAnswer (step : Nat) : Bool :=
  match onboardingQuestions.find? (fun q => q.step == step) with
  | some questionData => questionData.answerRequired
  | none => false

/-! ### `progressOnboardingStep` (`onboardingFlow.ts`)

`updateDoc` writes `onboardingStep = currentStep + 1`; a failed write throws
before anything else runs; a `getDoc` read-back follows; only when both
succeed does the `setTimeout` schedule `sendNextOnboardingQuestion(uid,
nextStep)` (with no messages argument).  The profile store is threaded as the
step value before the call. -/

structure ProgressOutcome where
  profileStep : Nat
  errored : Bool
  scheduledSend : Option Nat
  deriving Repr, DecidableEq

def progressOnboardingStep (stepBefore currentStep : Nat)
    (writeOk readOk : Bool) : ProgressOutcome :=
  if !writeOk then
    { profileStep := stepBefore, errored := true, scheduledSend := none }
  else if !readOk then
    { profileStep := currentStep + 1, errored := true, scheduledSend := none }
  else
    { profileStep := currentStep + 1, errored := false,
      scheduledSend := some (currentStep + 1) }

/-! ### `calculateStreak` (habit utilities)

Dates are calendar-day numbers: `YYYY-MM-DD` strings sort lexicographically in
chronological order, and the source's
`Math.floor((current - previous) / 86400000)` on UTC-midnight timestamps is
exactly the day difference.  The source sorts ascending and walks `i` from
`length - 2` down to `0`, breaking at the first pair whose difference is not
one day; `streakWalk` performs the same walk on the descending-sorted list. -/

def insertSorted (x : Int) : List Int → List Int
  | [] => [x]
  | y :: ys => if x ≤ y then x :: y :: ys else y :: insertSorted x ys

/-- Ascending sort, mirroring `completedDates.sort()` on date strings. -/
def sortDates : List Int → List Int
  | [] => []
  | x :: xs => insertSorted x (sortDates xs)

/-- Streak starts at 1, then walk adjacent pairs from the most recent date down,
incrementing while the day difference is exactly 1 and breaking otherwise. -/
def streakWalk : List Int → Nat
  | [] => 0
  | [_] => 1
  | currentDate :: previousDate :: rest =>
    if currentDate - previousDate = 1 then 1 + streakWalk (previousDate :: rest) else 1

def calculateStreak (completedDates : List Int) : Nat :=
  if completedDates.isEmpty then 0
  else streakWalk (sortDates completedDates).reverse

/-! ### `isProfileComplete` (`lib/profile`)

Each field is modelled with its JavaScript truthiness: a string field is falsy
when absent or empty, a numeric field when absent or zero, and the
`profileCompleted` flag passes only when it is literally `true`. -/

structure ProfileRecord where
  displayName : Option String := none
  age : Option Int := none
  gender : Option String := none
  height : Option Int := none
  weight : Option Int := none
  goals : Option String := none
  activityPreference : Option String := none
  daysPerWeek : Option Int := none
  injuries : Option String := none
  foodDislikes : Option String := none
  profileCompleted : Option Bool := none
  welcomed : Option Bool := none
  onboardingStep : Option Nat := none
  onboarded : Option Bool := none
  deriving Repr, DecidableEq

def truthyStr : Option String → Bool
  | none => false
  | some s => !s.isEmpty

def truthyInt : Option Int → Bool
  | none => false
  | some n => n != 0

def isProfileComplete (u : ProfileRecord) : Bool :=
  truthyStr u.displayName &&
  truthyInt u.age &&
  truthyStr u.gender &&
  truthyInt u.height &&
  truthyInt u.weight &&
  truthyStr u.goals &&
  truthyStr u.activityPreference &&
  truthyInt u.daysPerWeek &&
  truthyStr u.injuries &&
  truthyStr u.foodDislikes &&
  u.profileCompleted == some true

/-! ### `AuthMiddleware` (`app/middleware/AuthMiddleware.tsx`) -/

def publicRoutes : List String :=
  ["/(auth)/signin", "/(auth)/signup", "/signin", "/signup", "/", "/welcome"]

def profileRoutes : List String :=
  ["/(screens)/profile", "/profile", "/(screens)/setup", "/setup"]

def authRoutes : List String :=
  ["/(auth)/signin", "/(auth)/signup", "/signin", "/signup"]

/-- JavaScript `String.prototype.startsWith`, over the character lists (the
built-in `String.startsWith` does not reduce in the kernel). -/
def charsStartsWith : List Char → List Char → Bool
  | _, [] => true
  | [], _ :: _ => false
  | c :: cs, p :: ps => c == p && charsStartsWith cs ps

def strStartsWith (s pre : String) : Bool :=
  charsStartsWith s.data pre.data

/-- JavaScript `String.prototype.includes`: some suffix starts with `pat`. -/
def charsIncludes (pat : List Char) : List Char → Bool
  | [] => charsStartsWith [] pat
  | c :: cs => charsStartsWith (c :: cs) pat || charsIncludes pat cs

def strIncludes (s pat : String) : Bool :=
  charsIncludes pat.data s.data

def isPublicRoute (pathname : String) : Bool :=
  publicRoutes.any (fun route => pathname == route || strStartsWith pathname route)

def isProfileRoute (pathname : String) : Bool :=
  profileRoutes.any (fun route => pathname == route || strStartsWith pathname route)

def isAuthRoute (pathname : String) : Bool :=
  authRoutes.any (fun route => pathname == route || strStartsWith pathname route)

inductive Decision
  | allow
  | redirect (target : String)
  | loadingView
  deriving Repr, DecidableEq

structure AuthState where
  loading : Bool
  user : Bool
  mustShowWelcome : Bool
  needsProfile : Bool
  deriving Repr, DecidableEq

/-- The decision structure of the `AuthMiddleware` component body (rendering
the spinner, redirecting, or rendering children), with its default props
`requireAuth = true`, `requireProfile = true`. -/
def authMiddlewareDecide (requireAuth requireProfile : Bool)
    (st : AuthState) (pathname : String) : Decision :=
  if st.loading then Decision.loadingView
  else if requireAuth && !st.user then
    if !isPublicRoute pathname then Decision.redirect "/signin"
    else Decision.allow
  else if st.user then
    if isAuthRoute pathname && !st.mustShowWelcome && !st.needsProfile then
      Decision.redirect "/(tabs)/chat"
    else if st.mustShowWelcome && !strIncludes pathname "/welcome" && !isProfileRoute pathname then
      Decision.redirect "/welcome"
    else if requireProfile && st.needsProfile && !isProfileRoute pathname
        && !strIncludes pathname "/welcome" then
      Decision.redirect "/profile"
    else Decision.allow
  else Decision.allow

/-! ### Session-state derivation (`AuthProvider` + the chat screen's reads)

The provider resets `mustShowWelcome` and `needsProfile` to `false` and
returns before subscribing when there is no identity; with an identity the
listener computes `mustShowWelcome = (u?.welcomed !== true)` and
`needsProfile = !isProfileComplete(u)` over `userData || {}`.  The chat screen
reads `p?.onboardingStep ?? 0` and `p?.onboarded ?? false`. -/

structure SessionState where
  authenticated : Bool
  mustShowWelcome : Bool
  needsProfile : Bool
  onboardingStep : Nat
  onboarded : Bool
  deriving Repr, DecidableEq

def emptyRecord : ProfileRecord := {}

def deriveSession (hasIdentity : Bool) (profileRecord : Option ProfileRecord) :
    SessionState :=
  if !hasIdentity then
    { authenticated := false, mustShowWelcome := false, needsProfile := false,
      onboardingStep := 0, onboarded := false }
  else
    let u := profileRecord.getD emptyRecord
    { authenticated := true,
      mustShowWelcome := !(u.welcomed == some true),
      needsProfile := !isProfileComplete u,
      onboardingStep := u.onboardingStep.getD 0,
      onboarded := u.onboarded.getD false }

/-! ### The onboarding engine as an event machine

The chat screen's `send()` handler, the `onUserMessages` listener callback,
and the `setTimeout`-scheduled callbacks from `onboardingFlow.ts` are the only
code paths that write `onboardingStep`/`onboarded` or issue the
plan-generation request.  They are modelled as events over an explicit state;
scheduled callbacks live in pending queues and fire as their own events.
Effect counters record plan requests, persisted plans, completion messages,
and `completeOnboarding` invocations. -/

structure EngineState where
  onboardingStep : Nat
  onboarded : Bool
  pendingSends : List Nat
  pendingProgress : List Nat
  planRequests : Nat
  plansSaved : Nat
  completionMessages : Nat
  completeCalls : Nat
  deriving Repr, DecidableEq

def engineInit : EngineState :=
  { onboardingStep := 0, onboarded := false, pendingSends := [], pendingProgress := [],
    planRequests := 0, plansSaved := 0, completionMessages := 0, completeCalls := 0 }

inductive Event
  /-- The user submits text: the `send()` handler.  `writeOk` is the
  `progressOnboardingStep` profile write succeeding; `parseOk`/`saveOk` are
  `JSON.parse` of the plan and `saveUserPlan` succeeding. -/
  | userSend (writeOk parseOk saveOk : Bool)
  /-- The `onUserMessages` listener callback invoking
  `sendNextOnboardingQuestion(uid, step, items)`.  The code guards this with
  its captured `!onboarded`; the guard is dropped here, which only adds
  behaviours. -/
  | listenerFire (step : Nat) (messages : List ChatMessage)
  /-- A scheduled `sendNextOnboardingQuestion(uid, step)` (no messages
  argument) firing. -/
  | fireSend (step : Nat)
  /-- A scheduled auto-advance `progressOnboardingStep(uid, step)` firing. -/
  | fireProgress (step : Nat)

/-- Function `completeOnboarding(uid)`: writes `onboarded = true` and
`onboardingStep = TOTAL_ONBOARDING_STEPS` to the profile. -/
def applyCompleteOnboarding (st : EngineState) : EngineState :=
  { st with onboarded := true, onboardingStep := TOTAL_ONBOARDING_STEPS,
            completeCalls := st.completeCalls + 1 }

/-- The completion branch of `send()`: when the answered step equals
`TOTAL_ONBOARDING_STEPS - 2`, `completeOnboarding` runs, then the plan request
is issued; the plan is saved and the celebratory message appended only when
parsing and saving both succeed (a failure throws past them). -/
def completionCheck (preStep : Nat) (st : EngineState) (parseOk saveOk : Bool) :
    EngineState :=
  if preStep == TOTAL_ONBOARDING_STEPS - 2 then
    let st := applyCompleteOnboarding st
    { st with
      planRequests := st.planRequests + 1,
      plansSaved := st.plansSaved + (if parseOk && saveOk then 1 else 0),
      completionMessages := st.completionMessages + (if parseOk && saveOk then 1 else 0) }
  else st

/-- Effects of `sendNextOnboardingQuestion` on the engine state: invoke
`completeOnboarding` when the step is past the table, otherwise enqueue the
auto-advance it schedules (message appends do not touch the profile). -/
def applySendNext (st : EngineState) (step : Nat) (messages : List ChatMessage) :
    EngineState :=
  let r := sendNextOnboardingQuestion step messages
  if r.completed then applyCompleteOnboarding st
  else
    match r.scheduledProgress with
    | some s => { st with pendingProgress := st.pendingProgress ++ [s] }
    | none => st

def stepEvent (st : EngineState) : Event → EngineState
  | Event.userSend writeOk parseOk saveOk =>
    if st.onboarded then st
    else if doesCurrentStepRequireAnswer st.onboardingStep then
      if writeOk then
        let st1 := { st with onboardingStep := st.onboardingStep + 1,
                             pendingSends := st.pendingSends ++ [st.onboardingStep + 1] }
        completionCheck st.onboardingStep st1 parseOk saveOk
      else st
    else
      completionCheck st.onboardingStep st parseOk saveOk
  | Event.listenerFire step messages => applySendNext st step messages
  | Event.fireSend step =>
    if st.pendingSends.contains step then
      applySendNext { st with pendingSends := st.pendingSends.erase step } step []
    else st
  | Event.fireProgress step =>
    if st.pendingProgress.contains step then
      let st1 := { st with pendingProgress := st.pendingProgress.erase step }
      { st1 with onboardingStep := step + 1,
                 pendingSends := st1.pendingSends ++ [step + 1] }
    else st

def runTrace (tr : List Event) : EngineState :=
  tr.foldl stepEvent engineInit

/-! ### Helper lemmas about `sendNextOnboardingQuestion` -/

theorem sendNext_appended_shape (s : Nat) (ms : List ChatMessage) :
    ∀ m ∈ (sendNextOnboardingQuestion s ms).appended,
      m.role = ChatRole.assistant ∧ m.metaStep = some s := by
  intro m hm
  simp only [sendNextOnboardingQuestion] at hm
  split at hm
  · simp at hm
  · split at hm
    · simp at hm
    · split at hm
      · simp at hm
      · split at hm
        · simp at hm
        · simp at hm
          subst hm
          exact ⟨rfl, rfl⟩

theorem sendNext_appended_length (s : Nat) (ms : List ChatMessage) :
    (sendNextOnboardingQuestion s ms).appended.length ≤ 1 := by
  simp only [sendNextOnboardingQuestion]
  split
  · simp
  · split
    · simp
    · split
      · simp
      · split
        · simp
        · simp

theorem sendNext_suppressed (s : Nat) (ms : List ChatMessage)
    (h : hasQuestionBeenSent ms s = true) :
    (sendNextOnboardingQuestion s ms).appended = [] := by
  simp only [sendNextOnboardingQuestion]
  split
  · rfl
  · split
    · rfl
    · split
      · rfl
      · simp [h]

/-- Every entry of the question table requires an answer. -/
theorem table_answerRequired : ∀ q ∈ onboardingQuestions, q.answerRequired = true := by
  decide

/-- With this table, the informational auto-advance is never scheduled. -/
theorem sendNext_no_autoprogress (s : Nat) (ms : List ChatMessage) :
    (sendNextOnboardingQuestion s ms).scheduledProgress = none := by
  simp only [sendNextOnboardingQuestion]
  split
  · rfl
  · split
    · rfl
    · split
      · rfl
      · next q hq =>
        split
        · rfl
        · have hmem : q ∈ onboardingQuestions :=
            (List.mem_filter.mp (List.mem_of_find?_eq_some hq)).1
          simp [table_answerRequired q hmem]

theorem hasQuestionBeenSent_append (ms₁ ms₂ : List ChatMessage) (s : Nat) :
    hasQuestionBeenSent (ms₁ ++ ms₂) s =
      (hasQuestionBeenSent ms₁ s || hasQuestionBeenSent ms₂ s) := by
  simp [hasQuestionBeenSent, List.any_append]

/-! ### StreakEngine claims -/

/-- C3 counterexample: `calculateStreak` performs no today/yesterday recency
check.  Taking today = 3, the single completion date 0 is three days old —
neither today (3) nor yesterday (2) — yet the function returns 1, where the
claim requires 0. -/
theorem calculateStreak_stale_date_counterexample :
    calculateStreak [0] = 1 ∧ (0 : Int) ≠ 3 ∧ (0 : Int) ≠ 3 - 1 := by
  decide

/-- C3 amended: for every set of completion dates, the result is 0 on the
empty set and otherwise counts backward from the most recent date while each
successive pair differs by exactly one calendar day, stopping at the first
gap — with no condition relating the most recent date to today.  The listed
examples hold, and so does `calculateStreak [today - 3] = 1`, which the
original recency condition would have forced to 0. -/
theorem calculateStreak_spec (today : Int) :
    calculateStreak [] = 0 ∧
    calculateStreak [today] = 1 ∧
    calculateStreak [today, today - 1, today - 2] = 3 ∧
    calculateStreak [today - 3, today] = 1 ∧
    calculateStreak [today - 3] = 1 := by
  have h1 : ¬(today - 1 ≤ today - 2) := by omega
  have h2 : ¬(today ≤ today - 2) := by omega
  have h3 : ¬(today ≤ today - 1) := by omega
  have h4 : today - 3 ≤ today := by omega
  have h5 : today - (today - 1) = 1 := by omega
  have h6 : today - 1 - (today - 2) = 1 := by omega
  have h7 : ¬(today - (today - 3) = 1) := by omega
  refine ⟨rfl, rfl, ?_, ?_, rfl⟩
  · simp [calculateStreak, sortDates, insertSorted, streakWalk, h1, h2, h3, h5, h6]
  · simp [calculateStreak, sortDates, insertSorted, streakWalk, h4, h7]

/-! ### Profile-completeness claims -/

/-- A required field of §4.3 being empty or null, in the claim's sense:
string fields absent or the empty string, numeric fields absent. -/
def requiredFieldMissing (u : ProfileRecord) : Prop :=
  u.displayName = none ∨ u.displayName = some "" ∨
  u.age = none ∨
  u.gender = none ∨ u.gender = some "" ∨
  u.height = none ∨
  u.weight = none ∨
  u.goals = none ∨ u.goals = some "" ∨
  u.activityPreference = none ∨ u.activityPreference = some "" ∨
  u.daysPerWeek = none ∨
  u.injuries = none ∨ u.injuries = some "" ∨
  u.foodDislikes = none ∨ u.foodDislikes = some ""

/-- C4: `isProfileComplete` fails closed.  Any empty-or-null required field
makes it false regardless of the `profileCompleted` flag, and a
`profileCompleted` flag other than literal `true` makes it false even when
every required field is present (the flag dominates). -/
theorem isProfileComplete_fail_closed (u : ProfileRecord) :
    (requiredFieldMissing u → isProfileComplete u = false) ∧
    (u.profileCompleted ≠ some true → isProfileComplete u = false) := by
  constructor
  · intro h
    have hemp : ("" : String).isEmpty = true := rfl
    rcases h with h | h | h | h | h | h | h | h | h | h | h | h | h | h | h | h <;>
      simp [isProfileComplete, truthyStr, truthyInt, h, hemp]
  · intro h
    have : (u.profileCompleted == some true) = false := by
      simpa using h
    simp [isProfileComplete, this]

/-- Witness for C4 at concrete records: a record missing its display name is
incomplete even with the flag set, and a fully-populated record with
`profileCompleted: false` is incomplete. -/
theorem isProfileComplete_fail_closed_witness :
    isProfileComplete { emptyRecord with profileCompleted := some true } = false ∧
    isProfileComplete
      { displayName := some "Ana", age := some 30, gender := some "f",
        height := some 170, weight := some 70, goals := some "tone",
        activityPreference := some "gym", daysPerWeek := some 3,
        injuries := some "none", foodDislikes := some "cilantro",
        profileCompleted := some false } = false :=
  ⟨(isProfileComplete_fail_closed { emptyRecord with profileCompleted := some true }).1
      (Or.inl rfl),
   (isProfileComplete_fail_closed _).2 (by decide)⟩

/-! ### AccessGate claims -/

/-- C5 counterexample: an unauthenticated session (`loading:false`,
`user:false`) is NOT redirected to sign-in on protected routes.  The tab route
`/(tabs)/chat` is outside any sensible public set, yet the middleware allows
it; the welcome route, which the claim says is redirected, is explicitly in
the code's public list and is also allowed. -/
theorem unauthenticated_gate_counterexample :
    authMiddlewareDecide true true
      { loading := false, user := false, mustShowWelcome := false, needsProfile := false }
      "/(tabs)/chat" = Decision.allow ∧
    authMiddlewareDecide true true
      { loading := false, user := false, mustShowWelcome := false, needsProfile := false }
      "/welcome" = Decision.allow := by
  decide

/-- C5 amended: the unauthenticated redirect fires only for pathnames that
match no public-route prefix; because the code's public list contains "/" and
matching uses `startsWith`, every pathname beginning with "/" — the welcome
route and all protected routes included — counts as public and is allowed
without any redirect to sign-in. -/
theorem unauthenticated_gate_allows_slash_routes (pathname : String)
    (w n : Bool) (h : strStartsWith pathname "/" = true) :
    authMiddlewareDecide true true
      { loading := false, user := false, mustShowWelcome := w, needsProfile := n }
      pathname = Decision.allow := by
  have hpub : isPublicRoute pathname = true := by
    simp [isPublicRoute, publicRoutes, h]
  simp [authMiddlewareDecide, hpub]

/-- Witness for the amended C5 at the protected chat tab route. -/
theorem unauthenticated_gate_allows_slash_routes_witness :
    strStartsWith "/(tabs)/chat" "/" = true ∧
    authMiddlewareDecide true true
      { loading := false, user := false, mustShowWelcome := true, needsProfile := true }
      "/(tabs)/chat" = Decision.allow :=
  ⟨by decide, unauthenticated_gate_allows_slash_routes "/(tabs)/chat" true true (by decide)⟩

/-! ### SessionStateDeriver claims -/

/-- C9 counterexample: with no identity the provider CLEARS the welcome and
profile flags — `mustShowWelcome := false` and `needsProfile := false`, which
under the code's own reading (`hasCompletedWelcome = !mustShowWelcome`,
`isProfileComplete = !needsProfile`) means welcomed:true and
profileComplete:true — rather than the claim's fail-closed `welcomed:false,
profileComplete:false` (which would require `mustShowWelcome = true` and
`needsProfile = true`). -/
theorem deriveSession_no_identity_counterexample :
    (deriveSession false none).authenticated = false ∧
    (deriveSession false none).mustShowWelcome ≠ true ∧
    (deriveSession false none).needsProfile ≠ true := by
  decide

/-- C9 amended: with no identity, derivation returns `authenticated:false`
with the welcome/profile flags cleared (`mustShowWelcome:false`,
`needsProfile:false` — not the needs-everything values), `onboardingStep:0`
and `onboarded:false`, independently of any profile record; with an identity
and a null profile record it returns `authenticated:true` and the
needs-everything defaults exactly as claimed (`mustShowWelcome:true`,
`needsProfile:true`, `onboardingStep:0`, `onboarded:false`). -/
theorem deriveSession_defaults (r : Option ProfileRecord) :
    deriveSession false r =
      { authenticated := false, mustShowWelcome := false, needsProfile := false,
        onboardingStep := 0, onboarded := false } ∧
    deriveSession true none =
      { authenticated := true, mustShowWelcome := true, needsProfile := true,
        onboardingStep := 0, onboarded := false } := by
  exact ⟨rfl, by decide⟩

/-! ### OnboardingSequencer emission claims -/

/-- C6: question emission is idempotent.  For every step and message list,
a list that already carries an assistant message tagged with that step makes
`sendNextOnboardingQuestion` append nothing; and two calls in a row — the
second seeing the messages as they stand after the first — append at most one
message in total. -/
theorem sendNextQuestion_idempotent (step : Nat) (messages : List ChatMessage) :
    (hasQuestionBeenSent messages step = true →
      (sendNextOnboardingQuestion step messages).appended = []) ∧
    ((sendNextOnboardingQuestion step messages).appended ++
      (sendNextOnboardingQuestion step
        (messages ++ (sendNextOnboardingQuestion step messages).appended)).appended).length
      ≤ 1 := by
  refine ⟨sendNext_suppressed step messages, ?_⟩
  cases hr : (sendNextOnboardingQuestion step messages).appended with
  | nil =>
    simp [hr]
  | cons m rest =>
    have hlen := sendNext_appended_length step messages
    rw [hr] at hlen
    have hrest : rest = [] := by
      cases rest with
      | nil => rfl
      | cons _ _ => simp at hlen
    subst hrest
    have hshape := sendNext_appended_shape step messages m (by rw [hr]; exact List.mem_singleton_self m)
    have hsent : hasQuestionBeenSent (messages ++ [m]) step = true := by
      rw [hasQuestionBeenSent_append]
      simp [hasQuestionBeenSent, hshape.1, hshape.2]
    simp [hr, sendNext_suppressed step (messages ++ [m]) hsent]

/-- Witness for C6: with the step-0 question already in the log, the call
appends nothing. -/
theorem sendNextQuestion_idempotent_witness :
    hasQuestionBeenSent
      [{ role := ChatRole.assistant, text := "seed", metaStep := some 0 }] 0 = true ∧
    (sendNextOnboardingQuestion 0
      [{ role := ChatRole.assistant, text := "seed", metaStep := some 0 }]).appended = [] :=
  ⟨by decide,
   (sendNextQuestion_idempotent 0
      [{ role := ChatRole.assistant, text := "seed", metaStep := some 0 }]).1 (by decide)⟩

/-- C10 (implicit): the delayed callback inside `progressOnboardingStep`
invokes `sendNextOnboardingQuestion(uid, nextStep)` with the messages argument
omitted, so the list defaults to `[]`, `hasQuestionBeenSent` sees nothing, and
for every step with a table entry an assistant message for that step is
appended unconditionally — even when the same question is already present in
the real message log (`hsent`): duplicate suppression is bypassed on this
call path. -/
theorem delayed_send_bypasses_suppression (s : Nat) (ms : List ChatMessage)
    (hq : onboardingQuestions.any (fun q => q.step == s) = true)
    (hsent : hasQuestionBeenSent ms s = true) :
    (sendNextOnboardingQuestion s).appended.length = 1 ∧
    (sendNextOnboardingQuestion s).appended.map (fun m => (m.role, m.metaStep)) =
      [(ChatRole.assistant, some s)] := by
  have hs : s = 0 ∨ s = 1 ∨ s = 2 ∨ s = 3 ∨ s = 4 := by
    simp [onboardingQuestions] at hq
    omega
  rcases hs with h | h | h | h | h <;> subst h <;> exact ⟨by decide, by decide⟩

/-- Witness for C10 at step 4 (the step the delayed callback reaches after
the user answers step 3), with the step-4 question already in the log. -/
theorem delayed_send_bypasses_suppression_witness :
    onboardingQuestions.any (fun q => q.step == 4) = true ∧
    hasQuestionBeenSent
      [{ role := ChatRole.assistant, text := "already", metaStep := some 4 }] 4 = true ∧
    (sendNextOnboardingQuestion 4).appended.length = 1 :=
  ⟨by decide, by decide,
   (delayed_send_bypasses_suppression 4
      [{ role := ChatRole.assistant, text := "already", metaStep := some 4 }]
      (by decide) (by decide)).1⟩

/-! ### Engine invariant -/

/-- Inductive invariant of the engine: the auto-advance queue stays empty
(every table entry requires an answer), a completed onboarding sits at the
terminal step, and the plan-generation effects fire at most once — none of
them before completion. -/
def EngineInv (st : EngineState) : Prop :=
  st.pendingProgress = [] ∧
  (st.onboarded = true → st.onboardingStep = TOTAL_ONBOARDING_STEPS) ∧
  (st.onboarded = false →
    st.planRequests = 0 ∧ st.plansSaved = 0 ∧ st.completionMessages = 0) ∧
  st.planRequests ≤ 1 ∧ st.plansSaved ≤ st.planRequests ∧
  st.completionMessages ≤ st.planRequests

theorem engineInit_inv : EngineInv engineInit := by
  refine ⟨rfl, ?_, ?_, ?_, ?_, ?_⟩ <;> simp [engineInit]

theorem applyCompleteOnboarding_inv (st : EngineState) (h : EngineInv st) :
    EngineInv (applyCompleteOnboarding st) := by
  obtain ⟨hpp, _, _, hle, hsle, hcle⟩ := h
  refine ⟨hpp, fun _ => rfl, ?_, hle, hsle, hcle⟩
  intro hc
  simp [applyCompleteOnboarding] at hc

theorem applySendNext_inv (st : EngineState) (s : Nat) (ms : List ChatMessage)
    (h : EngineInv st) : EngineInv (applySendNext st s ms) := by
  simp only [applySendNext, sendNext_no_autoprogress]
  split
  · exact applyCompleteOnboarding_inv st h
  · exact h

theorem completionCheck_inv (pre : Nat) (st : EngineState) (parseOk saveOk : Bool)
    (hpp : st.pendingProgress = [])
    (hob : st.onboarded = false)
    (hz : st.planRequests = 0 ∧ st.plansSaved = 0 ∧ st.completionMessages = 0) :
    EngineInv (completionCheck pre st parseOk saveOk) := by
  obtain ⟨hz1, hz2, hz3⟩ := hz
  unfold completionCheck
  split
  · refine ⟨hpp, fun _ => rfl, ?_, ?_, ?_, ?_⟩
    · intro hc
      simp [applyCompleteOnboarding] at hc
    · simp [applyCompleteOnboarding, hz1]
    · simp [applyCompleteOnboarding, hz1, hz2]
      split <;> omega
    · simp [applyCompleteOnboarding, hz1, hz3]
      split <;> omega
  · refine ⟨hpp, ?_, fun _ => ⟨hz1, hz2, hz3⟩, by omega, by omega, by omega⟩
    intro ht
    rw [hob] at ht
    exact Bool.noConfusion ht

theorem stepEvent_inv (st : EngineState) (e : Event) (h : EngineInv st) :
    EngineInv (stepEvent st e) := by
  obtain ⟨hpp, honb, hzero, hle, hsle, hcle⟩ := h
  cases e with
  | userSend writeOk parseOk saveOk =>
    simp only [stepEvent]
    split
    · exact ⟨hpp, honb, hzero, hle, hsle, hcle⟩
    · next hob =>
      have hob' : st.onboarded = false := by
        revert hob
        cases st.onboarded <;> simp
      split
      · split
        · exact completionCheck_inv st.onboardingStep _ parseOk saveOk hpp hob' (hzero hob')
        · exact ⟨hpp, honb, hzero, hle, hsle, hcle⟩
      · exact completionCheck_inv st.onboardingStep st parseOk saveOk hpp hob' (hzero hob')
  | listenerFire s ms => exact applySendNext_inv st s ms ⟨hpp, honb, hzero, hle, hsle, hcle⟩
  | fireSend s =>
    simp only [stepEvent]
    split
    · exact applySendNext_inv _ s [] ⟨hpp, honb, hzero, hle, hsle, hcle⟩
    · exact ⟨hpp, honb, hzero, hle, hsle, hcle⟩
  | fireProgress s =>
    simp only [stepEvent, hpp]
    exact ⟨hpp, honb, hzero, hle, hsle, hcle⟩

theorem runTrace_inv (tr : List Event) : EngineInv (runTrace tr) := by
  suffices h : ∀ st, EngineInv st → EngineInv (tr.foldl stepEvent st) from
    h engineInit engineInit_inv
  induction tr with
  | nil => intro st hst; exact hst
  | cons e rest ih => intro st hst; exact ih _ (stepEvent_inv st e hst)

/-! ### Completion-trigger and at-most-once claims -/

/-- C1 counterexample: in the five-step scenario, after the user answers
steps 0–2 the profile sits at step 3 = `TOTAL_ONBOARDING_STEPS - 2` with
onboarding open and no completion yet; the very next user answer — the answer
to step 3 — invokes `completeOnboarding` (the `send()` handler's
`onboardingStep == TOTAL_ONBOARDING_STEPS - 2` branch), so completion fires
while the current step is still `TOTAL_STEPS - 2` and before question 4 is
ever answered, contradicting the claim. -/
theorem completion_at_second_to_last_counterexample :
    (runTrace [Event.userSend true true true, Event.userSend true true true,
      Event.userSend true true true]).onboardingStep = TOTAL_ONBOARDING_STEPS - 2 ∧
    (runTrace [Event.userSend true true true, Event.userSend true true true,
      Event.userSend true true true]).onboarded = false ∧
    (runTrace [Event.userSend true true true, Event.userSend true true true,
      Event.userSend true true true]).completeCalls = 0 ∧
    (runTrace [Event.userSend true true true, Event.userSend true true true,
      Event.userSend true true true, Event.userSend true true true]).completeCalls = 1 := by
  decide

/-- C1 amended: in the five-step scenario, answering step 3 advances the
profile step to 4 and schedules the delayed question-4 send, but
`completeOnboarding` fires immediately within that same answer event — i.e.
exactly when the answered step equals `TOTAL_ONBOARDING_STEPS - 2` — without
waiting for question 4 to be answered.  Question 4 is nonetheless still sent
(4 < `TOTAL_ONBOARDING_STEPS`), and completion fires exactly once over the
whole scenario, including after question 4 is delivered and answered. -/
theorem completion_at_second_to_last :
    TOTAL_ONBOARDING_STEPS = 5 ∧
    (runTrace [Event.userSend true true true, Event.userSend true true true,
      Event.userSend true true true, Event.userSend true true true]).onboarded = true ∧
    (runTrace [Event.userSend true true true, Event.userSend true true true,
      Event.userSend true true true, Event.userSend true true true]).onboardingStep = 5 ∧
    (runTrace [Event.userSend true true true, Event.userSend true true true,
      Event.userSend true true true, Event.userSend true true true]).pendingSends.contains 4
      = true ∧
    (sendNextOnboardingQuestion 4).appended.length = 1 ∧
    (sendNextOnboardingQuestion 4).completed = false ∧
    (runTrace [Event.userSend true true true, Event.userSend true true true,
      Event.userSend true true true, Event.userSend true true true,
      Event.fireSend 4, Event.userSend true true true]).completeCalls = 1 ∧
    (runTrace [Event.userSend true true true, Event.userSend true true true,
      Event.userSend true true true, Event.userSend true true true,
      Event.fireSend 4, Event.userSend true true true]).planRequests = 1 := by
  decide

/-- C2: across every possible event trace of the engine — including traces
that deliver the same event or state update twice — at most one
plan-generation request is issued, at most one plan document is persisted,
and at most one completion message is appended. -/
theorem plan_generation_at_most_once (tr : List Event) :
    (runTrace tr).planRequests ≤ 1 ∧
    (runTrace tr).plansSaved ≤ 1 ∧
    (runTrace tr).completionMessages ≤ 1 := by
  obtain ⟨-, -, -, hle, hsle, hcle⟩ := runTrace_inv tr
  exact ⟨hle, le_trans hsle hle, le_trans hcle hle⟩

/-- C7: for every state reachable through the engine's operations,
`onboarded = true` implies `onboardingStep = TOTAL_ONBOARDING_STEPS`:
`completeOnboarding` writes both fields together and no other operation
breaks the implication. -/
theorem onboarded_implies_terminal_step (tr : List Event)
    (h : (runTrace tr).onboarded = true) :
    (runTrace tr).onboardingStep = TOTAL_ONBOARDING_STEPS :=
  (runTrace_inv tr).2.1 h

/-- Witness for C7 on the trace that completes onboarding by answering the
four answer-gated steps 0–3. -/
theorem onboarded_implies_terminal_step_witness :
    (runTrace [Event.userSend true true true, Event.userSend true true true,
      Event.userSend true true true, Event.userSend true true true]).onboarded = true ∧
    (runTrace [Event.userSend true true true, Event.userSend true true true,
      Event.userSend true true true, Event.userSend true true true]).onboardingStep
      = TOTAL_ONBOARDING_STEPS :=
  ⟨by decide,
   onboarded_implies_terminal_step
     [Event.userSend true true true, Event.userSend true true true,
      Event.userSend true true true, Event.userSend true true true] (by decide)⟩

/-! ### Step-advance claims -/

/-- C8: a successful `progressOnboardingStep(uid, N)` leaves the profile at
exactly `N + 1` (never `N`, never `N + 2`) and schedules the follow-up send
for `N + 1`; a failed profile write propagates the error, leaves the step
unadvanced, and schedules no follow-up send. -/
theorem progressStep_exact_advance (stepBefore currentStep : Nat) (readOk : Bool) :
    ((progressOnboardingStep stepBefore currentStep true true).profileStep
        = currentStep + 1 ∧
      (progressOnboardingStep stepBefore currentStep true true).profileStep
        ≠ currentStep ∧
      (progressOnboardingStep stepBefore currentStep true true).profileStep
        ≠ currentStep + 2 ∧
      (progressOnboardingStep stepBefore currentStep true true).errored = false ∧
      (progressOnboardingStep stepBefore currentStep true true).scheduledSend
        = some (currentStep + 1)) ∧
    ((progressOnboardingStep stepBefore currentStep false readOk).errored = true ∧
      (progressOnboardingStep stepBefore currentStep false readOk).profileStep
        = stepBefore ∧
      (progressOnboardingStep stepBefore currentStep false readOk).scheduledSend
        = none) := by
  refine ⟨⟨rfl, by simp [progressOnboardingStep], by simp [progressOnboardingStep], rfl, rfl⟩,
    rfl, rfl, rfl⟩

end Heeal
